import Mathlib

/-!
# The audio object shim (`android-app/jnilibs_src/dummy_pcaudiolib.c`)

A shallow embedding of the eight C functions of the shim.  The C heap is made
explicit: every function takes the heap it runs in and returns the heap it
leaves behind, next to its C return value.  The two C library calls the file
makes, `malloc` and `free`, are modelled by their C standard contracts: what the
standard leaves open (which block is handed out, what a released block holds
afterwards) is a parameter.
-/

set_option linter.unusedVariables false

namespace DummyPcaudiolib

/-! ## Data model -/

/-- A C pointer, seen as an address.  Address `0` is the null pointer. -/
abbrev Ptr := Nat

/-- The null pointer. -/
abbrev NULL : Ptr := 0

/-- The C declaration `struct audio_object { int dummy; };`. -/
structure audio_object where
  dummy : Int
deriving DecidableEq

/-- The part of the C heap the shim can touch: the addresses of the blocks that
are currently allocated (the live handles) and the `struct audio_object` stored
at each address. -/
structure Heap where
  live : Finset Ptr
  mem : Ptr → audio_object

/-- A `const char *` argument; `none` is a null pointer. -/
abbrev CString := Option String

/-- A `const void *` argument; `none` is a null pointer, otherwise the bytes it
points to. -/
abbrev CBuffer := Option (List Nat)

/-! ## The C library allocator -/

/-- The answer of the C library allocator to one request: `none` when no memory
is available, `some a` when it hands out the block at address `a`. -/
abbrev AllocOutcome := Option Ptr

/-- The C standard contract of `malloc`: a block that is handed out is non-null
and is not one of the blocks that are already allocated. -/
def alloc_ok (h : Heap) : AllocOutcome → Prop
  | none => True
  | some a => a ≠ NULL ∧ a ∉ h.live

instance (h : Heap) (r : AllocOutcome) : Decidable (alloc_ok h r) := by
  cases r <;> unfold alloc_ok <;> infer_instance

/-- The value of `sizeof(struct audio_object)`: one `int`. -/
def sizeof_audio_object : Nat := 4

/-- The C library call `malloc(size)` with the allocator's answer `r`.  On failure it
returns the null pointer and leaves the heap alone; on success it returns the
block's address, which becomes live.  The block's content is not written. -/
def malloc (h : Heap) (size : Nat) : AllocOutcome → Ptr × Heap
  | none => (NULL, h)
  | some a => (a, { h with live := insert a h.live })

/-- The C library call `free(p)`: nothing happens for the null pointer, a live
block is released, and anything else (a block that is not allocated) is undefined
behaviour, rendered as `none`.  The C standard promises nothing about the
storage of a released block, and allocators do overwrite it with their own
bookkeeping: `scrub` is whatever the allocator leaves at the released address.
No other address is written. -/
def free (h : Heap) (p : Ptr) (scrub : audio_object) : Option Heap :=
  if p = NULL then some h
  else if p ∈ h.live then
    some { live := h.live.erase p, mem := Function.update h.mem p scrub }
  else none

/-! ## The functions of the shim -/

/-- The C function `audio_object_open`: its body is `return 0;`. -/
def audio_object_open (h : Heap) (object : Ptr) (format : Int) (rate : Nat)
    (channels : Nat) : Int × Heap :=
  (0, h)

/-- The C function `audio_object_close`: its body is empty. -/
def audio_object_close (h : Heap) (object : Ptr) : Heap :=
  h

/-- The C function `audio_object_destroy`: `if (object) free(object);`.  The
content `scrub` that the allocator leaves in a released block is a parameter. -/
def audio_object_destroy (h : Heap) (object : Ptr) (scrub : audio_object) : Option Heap :=
  if object ≠ NULL then free h object scrub else some h

/-- The C function `audio_object_write`: its body is `return 0;` (followed by a
second `return 0;` that is never reached). -/
def audio_object_write (h : Heap) (object : Ptr) (data : CBuffer) (bytes : Nat) :
    Int × Heap :=
  (0, h)

/-- The C function `audio_object_drain`: its body is `return 0;`. -/
def audio_object_drain (h : Heap) (object : Ptr) : Int × Heap :=
  (0, h)

/-- The C function `audio_object_flush`: its body is `return 0;`. -/
def audio_object_flush (h : Heap) (object : Ptr) : Int × Heap :=
  (0, h)

/-- The C function `audio_object_strerror`: its body is `return "Success";`. -/
def audio_object_strerror (h : Heap) (object : Ptr) (error : Int) : String × Heap :=
  ("Success", h)

/-- The C function `create_audio_device_object`: it calls
`malloc(sizeof(struct audio_object))` and returns the result as it is.  The
allocator's answer `r` to that one request is a parameter. -/
def create_audio_device_object (h : Heap) (r : AllocOutcome) (device : CString)
    (application_name : CString) (description : CString) : Ptr × Heap :=
  let obj := malloc h sizeof_audio_object r
  obj

/-! ## Derived notions -/

/-- A handle is allocated in a heap when it is non-null and live there. -/
def allocated (h : Heap) (object : Ptr) : Prop :=
  object ≠ NULL ∧ object ∈ h.live

instance (h : Heap) (object : Ptr) : Decidable (allocated h object) := by
  unfold allocated; infer_instance

/-- What a run of the whole life of one handle leaves behind: the handle that
create returned, the status codes of open, write, drain and flush, the heaps
after each of create, open, write, drain, flush and close (in this order), and
the heap after destroy. -/
structure Trace where
  handle : Ptr
  statuses : List Int
  before_destroy : List Heap
  final : Heap

/-- The caller that runs create, open, write, drain, flush, close, destroy in
this order on the handle that create returned.  It yields the trace of the run,
or `none` when a step is undefined behaviour. -/
def lifecycle (h : Heap) (r : AllocOutcome) (device application_name description : CString)
    (format : Int) (rate channels : Nat) (data : CBuffer) (bytes : Nat)
    (scrub : audio_object) : Option Trace :=
  let c := create_audio_device_object h r device application_name description
  let o := audio_object_open c.2 c.1 format rate channels
  let w := audio_object_write o.2 c.1 data bytes
  let d := audio_object_drain w.2 c.1
  let f := audio_object_flush d.2 c.1
  let h6 := audio_object_close f.2 c.1
  (audio_object_destroy h6 c.1 scrub).map (fun h7 =>
    { handle := c.1
      statuses := [o.1, w.1, d.1, f.1]
      before_destroy := [c.2, o.2, w.2, d.2, f.2, h6]
      final := h7 })

/-- A small heap used to evaluate the functions: the blocks at addresses 2 and
5 are live, every `dummy` field holds 0. -/
def heap0 : Heap :=
  { live := {2, 5}, mem := fun _ => { dummy := 0 } }

/-! ## Status codes -/

/-- C1: for every allocated (non-null, live) handle and for every format, rate and
channel count, `audio_object_open` returns 0, and `audio_object_drain` and
`audio_object_flush` return 0 on that handle. -/
theorem open_drain_flush_return_zero (h : Heap) (object : Ptr) (format : Int)
    (rate channels : Nat) (hobj : allocated h object) :
    (audio_object_open h object format rate channels).1 = 0 ∧
    (audio_object_drain h object).1 = 0 ∧
    (audio_object_flush h object).1 = 0 :=
  ⟨rfl, rfl, rfl⟩

theorem open_drain_flush_return_zero_witness :
    allocated heap0 2 ∧
    (audio_object_open heap0 2 16 44100 2).1 = 0 ∧
    (audio_object_drain heap0 2).1 = 0 ∧
    (audio_object_flush heap0 2).1 = 0 :=
  ⟨by decide, open_drain_flush_return_zero heap0 2 16 44100 2 (by decide)⟩

/-- C2: for every allocated handle, every data buffer and every byte count,
`audio_object_write` returns status 0; the status equals the byte count only when
that count is 0; and a write of zero bytes gives the same result (status and
heap) as a write of any buffer. -/
theorem write_returns_zero (h : Heap) (object : Ptr) (data other : CBuffer) (bytes : Nat)
    (hobj : allocated h object) :
    (audio_object_write h object data bytes).1 = 0 ∧
    ((audio_object_write h object data bytes).1 = (bytes : Int) → bytes = 0) ∧
    audio_object_write h object other 0 = audio_object_write h object data bytes := by
  refine ⟨rfl, ?_, rfl⟩
  intro hb
  have h0 : (0 : Int) = (bytes : Int) := hb
  exact_mod_cast h0.symm

theorem write_returns_zero_witness :
    allocated heap0 5 ∧
    (audio_object_write heap0 5 (some [1, 2, 3]) 3).1 = 0 ∧
    ((audio_object_write heap0 5 (some [1, 2, 3]) 3).1 = ((3 : Nat) : Int) → 3 = 0) ∧
    audio_object_write heap0 5 (some []) 0 =
      audio_object_write heap0 5 (some [1, 2, 3]) 3 :=
  ⟨by decide, write_returns_zero heap0 5 (some [1, 2, 3]) (some []) 3 (by decide)⟩

/-- C3: for every heap, every handle and every integer error code,
`audio_object_strerror` returns exactly the string "Success"; two calls with
different handles and error codes return the same string. -/
theorem strerror_is_success (h : Heap) (object other : Ptr) (error code : Int) :
    (audio_object_strerror h object error).1 = "Success" ∧
    (audio_object_strerror h object error).1 = (audio_object_strerror h other code).1 :=
  ⟨rfl, rfl⟩

/-! ## Creation and destruction -/

/-- C4: whenever the allocation succeeds (and the allocator keeps its contract),
`create_audio_device_object` returns a non-null handle that was not live before
the call and is live after it, the live set grows by exactly that handle, and
neither the handle nor the resulting heap depends on the three strings. -/
theorem create_returns_fresh_handle (h : Heap) (r : AllocOutcome)
    (device application_name description : CString)
    (hok : alloc_ok h r) (hsucc : r ≠ none) :
    (create_audio_device_object h r device application_name description).1 ≠ NULL ∧
    (create_audio_device_object h r device application_name description).1 ∉ h.live ∧
    (create_audio_device_object h r device application_name description).1 ∈
      (create_audio_device_object h r device application_name description).2.live ∧
    (create_audio_device_object h r device application_name description).2.live =
      insert (create_audio_device_object h r device application_name description).1 h.live ∧
    ∀ d a s : CString,
      create_audio_device_object h r d a s =
        create_audio_device_object h r device application_name description := by
  cases r with
  | none => exact absurd rfl hsucc
  | some a =>
    obtain ⟨hnn, hfresh⟩ := hok
    refine ⟨hnn, hfresh, ?_, rfl, fun _ _ _ => rfl⟩
    simp [create_audio_device_object, malloc]

theorem create_returns_fresh_handle_witness :
    (alloc_ok heap0 (some 7) ∧ (some 7 : AllocOutcome) ≠ none) ∧
    (create_audio_device_object heap0 (some 7) none (some "") (some "speech")).1 ≠ NULL ∧
    (create_audio_device_object heap0 (some 7) none (some "") (some "speech")).1 ∉ heap0.live ∧
    (create_audio_device_object heap0 (some 7) none (some "") (some "speech")).1 ∈
      (create_audio_device_object heap0 (some 7) none (some "") (some "speech")).2.live ∧
    (create_audio_device_object heap0 (some 7) none (some "") (some "speech")).2.live =
      insert (create_audio_device_object heap0 (some 7) none (some "") (some "speech")).1
        heap0.live ∧
    ∀ d a s : CString,
      create_audio_device_object heap0 (some 7) d a s =
        create_audio_device_object heap0 (some 7) none (some "") (some "speech") :=
  ⟨⟨by decide, by decide⟩,
    create_returns_fresh_handle heap0 (some 7) none (some "") (some "speech")
      (by decide) (by decide)⟩

/-- C5: `audio_object_destroy` on the null handle succeeds and leaves the heap
unchanged.  On a live non-null handle it succeeds, removes exactly that handle
from the live set, and leaves every other handle as it was: live exactly when
it was live before, with the same stored content.  This holds whatever the
allocator leaves in the released block. -/
theorem destroy_effect (h : Heap) (object : Ptr) (scrub : audio_object) :
    audio_object_destroy h NULL scrub = some h ∧
    (object ≠ NULL → object ∈ h.live →
      ∃ h2, audio_object_destroy h object scrub = some h2 ∧
        object ∉ h2.live ∧
        h2.live = h.live.erase object ∧
        (∀ q, q ≠ object → (q ∈ h2.live ↔ q ∈ h.live)) ∧
        (∀ q, q ≠ object → h2.mem q = h.mem q)) := by
  refine ⟨by simp [audio_object_destroy], ?_⟩
  intro hnn hlive
  refine ⟨{ live := h.live.erase object, mem := Function.update h.mem object scrub },
    ?_, ?_, rfl, ?_, ?_⟩
  · simp [audio_object_destroy, free, hnn, hlive]
  · simp
  · intro q hq
    simp [Finset.mem_erase, hq]
  · intro q hq
    exact Function.update_noteq hq scrub h.mem

theorem destroy_effect_witness :
    (2 ≠ NULL ∧ 2 ∈ heap0.live) ∧
    ∃ h2, audio_object_destroy heap0 2 { dummy := 1431655787 } = some h2 ∧
      2 ∉ h2.live ∧
      h2.live = heap0.live.erase 2 ∧
      (∀ q, q ≠ 2 → (q ∈ h2.live ↔ q ∈ heap0.live)) ∧
      (∀ q, q ≠ 2 → h2.mem q = heap0.mem q) :=
  ⟨⟨by decide, by decide⟩,
    (destroy_effect heap0 2 { dummy := 1431655787 }).2 (by decide) (by decide)⟩

/-! ## The whole life of a handle -/

/-- C6: from every heap in which the allocation succeeds (the allocator keeping
its contract), for arbitrary strings, format, rate, channels, data buffer and
byte count, and whatever the allocator leaves in a released block, the sequence
create, open, write, drain, flush, close, destroy on the created handle
completes.  The handle is the one create returned; it is non-null and was not
live before; in each of the six heaps after create, open, write, drain, flush
and close the live handles are the initial ones plus the handle; the four
status codes are 0; after destroy the handle is no longer live and the set of
live handles is the set before create, every other handle keeping its
content. -/
theorem lifecycle_completes (h : Heap) (r : AllocOutcome)
    (device application_name description : CString) (format : Int) (rate channels : Nat)
    (data : CBuffer) (bytes : Nat) (scrub : audio_object)
    (hok : alloc_ok h r) (hsucc : r ≠ none) :
    ∃ t,
      lifecycle h r device application_name description format rate channels data bytes
        scrub = some t ∧
      t.handle = (create_audio_device_object h r device application_name description).1 ∧
      t.handle ≠ NULL ∧
      t.handle ∉ h.live ∧
      t.before_destroy.length = 6 ∧
      (∀ hp ∈ t.before_destroy, t.handle ∈ hp.live ∧ hp.live = insert t.handle h.live) ∧
      t.statuses = [0, 0, 0, 0] ∧
      t.handle ∉ t.final.live ∧
      t.final.live = h.live ∧
      (∀ q, q ≠ t.handle → t.final.mem q = h.mem q) := by
  cases r with
  | none => exact absurd rfl hsucc
  | some a =>
    obtain ⟨hnn, hfresh⟩ := hok
    have hnn0 : a ≠ 0 := hnn
    refine ⟨{ handle := a
              statuses := [0, 0, 0, 0]
              before_destroy := List.replicate 6 { h with live := insert a h.live }
              final := { live := h.live, mem := Function.update h.mem a scrub } },
      ?_, rfl, hnn, hfresh, rfl, ?_, rfl, hfresh, rfl, ?_⟩
    · simp [lifecycle, create_audio_device_object, malloc, audio_object_open,
        audio_object_write, audio_object_drain, audio_object_flush, audio_object_close,
        audio_object_destroy, free, hnn0, Finset.erase_eq_of_not_mem hfresh]
    · intro hp hmem
      have hp_eq : hp = { h with live := insert a h.live } := List.eq_of_mem_replicate hmem
      subst hp_eq
      exact ⟨Finset.mem_insert_self a h.live, rfl⟩
    · intro q hq
      exact Function.update_noteq hq scrub h.mem

theorem lifecycle_completes_witness :
    (alloc_ok heap0 (some 9) ∧ (some 9 : AllocOutcome) ≠ none) ∧
    ∃ t,
      lifecycle heap0 (some 9) (some "default") none (some "") (-3) 48000 2
        (some [0, 255]) 2 { dummy := 1431655787 } = some t ∧
      t.handle =
        (create_audio_device_object heap0 (some 9) (some "default") none (some "")).1 ∧
      t.handle ≠ NULL ∧
      t.handle ∉ heap0.live ∧
      t.before_destroy.length = 6 ∧
      (∀ hp ∈ t.before_destroy,
        t.handle ∈ hp.live ∧ hp.live = insert t.handle heap0.live) ∧
      t.statuses = [0, 0, 0, 0] ∧
      t.handle ∉ t.final.live ∧
      t.final.live = heap0.live ∧
      (∀ q, q ≠ t.handle → t.final.mem q = heap0.mem q) :=
  ⟨⟨by decide, by decide⟩,
    lifecycle_completes heap0 (some 9) (some "default") none (some "") (-3) 48000 2
      (some [0, 255]) 2 { dummy := 1431655787 } (by decide) (by decide)⟩

/-! ## Operations without effect -/

/-- C7: `audio_object_close` has no effect: for every heap and every handle the
heap after close is the heap before it, so the live set is the same and the
handle is live afterwards exactly when it was live before (close releases
nothing). -/
theorem close_has_no_effect (h : Heap) (object : Ptr) :
    audio_object_close h object = h ∧
    (audio_object_close h object).live = h.live ∧
    (object ∈ (audio_object_close h object).live ↔ object ∈ h.live) :=
  ⟨rfl, rfl, Iff.rfl⟩

/-- C8: on a live handle each of open, write, drain, flush, close and strerror
returns the heap it was given: the same live handles and the same stored
content of the handle.  So the handle is still live after each of the six, and
it is allocated (non-null and live) afterwards exactly when it was before. -/
theorem six_operations_preserve_allocated (h : Heap) (object : Ptr) (format : Int)
    (rate channels : Nat) (data : CBuffer) (bytes : Nat) (error : Int)
    (hlive : object ∈ h.live) :
    ((audio_object_open h object format rate channels).2 = h ∧
      (audio_object_write h object data bytes).2 = h ∧
      (audio_object_drain h object).2 = h ∧
      (audio_object_flush h object).2 = h ∧
      audio_object_close h object = h ∧
      (audio_object_strerror h object error).2 = h) ∧
    ((audio_object_open h object format rate channels).2.live = h.live ∧
      (audio_object_write h object data bytes).2.live = h.live ∧
      (audio_object_drain h object).2.live = h.live ∧
      (audio_object_flush h object).2.live = h.live ∧
      (audio_object_close h object).live = h.live ∧
      (audio_object_strerror h object error).2.live = h.live) ∧
    ((audio_object_open h object format rate channels).2.mem object = h.mem object ∧
      (audio_object_write h object data bytes).2.mem object = h.mem object ∧
      (audio_object_drain h object).2.mem object = h.mem object ∧
      (audio_object_flush h object).2.mem object = h.mem object ∧
      (audio_object_close h object).mem object = h.mem object ∧
      (audio_object_strerror h object error).2.mem object = h.mem object) ∧
    (object ∈ (audio_object_open h object format rate channels).2.live ∧
      object ∈ (audio_object_write h object data bytes).2.live ∧
      object ∈ (audio_object_drain h object).2.live ∧
      object ∈ (audio_object_flush h object).2.live ∧
      object ∈ (audio_object_close h object).live ∧
      object ∈ (audio_object_strerror h object error).2.live) ∧
    ((allocated (audio_object_open h object format rate channels).2 object ↔
        allocated h object) ∧
      (allocated (audio_object_write h object data bytes).2 object ↔ allocated h object) ∧
      (allocated (audio_object_drain h object).2 object ↔ allocated h object) ∧
      (allocated (audio_object_flush h object).2 object ↔ allocated h object) ∧
      (allocated (audio_object_close h object) object ↔ allocated h object) ∧
      (allocated (audio_object_strerror h object error).2 object ↔ allocated h object)) :=
  ⟨⟨rfl, rfl, rfl, rfl, rfl, rfl⟩, ⟨rfl, rfl, rfl, rfl, rfl, rfl⟩,
    ⟨rfl, rfl, rfl, rfl, rfl, rfl⟩, ⟨hlive, hlive, hlive, hlive, hlive, hlive⟩,
    ⟨Iff.rfl, Iff.rfl, Iff.rfl, Iff.rfl, Iff.rfl, Iff.rfl⟩⟩

theorem six_operations_preserve_allocated_witness :
    5 ∈ heap0.live ∧
    5 ∈ (audio_object_open heap0 5 1 22050 1).2.live ∧
    5 ∈ (audio_object_write heap0 5 (some [7, 7]) 2).2.live ∧
    5 ∈ (audio_object_drain heap0 5).2.live ∧
    5 ∈ (audio_object_flush heap0 5).2.live ∧
    5 ∈ (audio_object_close heap0 5).live ∧
    5 ∈ (audio_object_strerror heap0 5 (-1)).2.live :=
  ⟨by decide,
    (six_operations_preserve_allocated heap0 5 1 22050 1 (some [7, 7]) 2 (-1)
      (by decide)).2.2.2.1⟩

/-! ## Allocation failure -/

/-- C9: `create_audio_device_object` returns what `malloc` returned, heap
included.  With an allocator that keeps its contract it returns the null handle
exactly when the allocation fails, and then the heap (so the set of live
handles) is unchanged; being a total function it has no other failure outcome:
when the allocation succeeds it returns the allocated block. -/
theorem create_null_iff_allocation_fails (h : Heap) (r : AllocOutcome)
    (device application_name description : CString) (hok : alloc_ok h r) :
    create_audio_device_object h r device application_name description =
      malloc h sizeof_audio_object r ∧
    ((create_audio_device_object h r device application_name description).1 = NULL ↔
      r = none) ∧
    (r = none →
      (create_audio_device_object h r device application_name description).2 = h ∧
      (create_audio_device_object h r device application_name description).2.live = h.live) ∧
    (∀ a, r = some a →
      create_audio_device_object h r device application_name description =
        (a, { h with live := insert a h.live })) := by
  cases r with
  | none =>
    exact ⟨rfl, ⟨fun _ => rfl, fun _ => rfl⟩, fun _ => ⟨rfl, rfl⟩,
      fun a ha => by cases ha⟩
  | some b =>
    obtain ⟨hnn, _⟩ := hok
    refine ⟨rfl, ⟨?_, ?_⟩, ?_, ?_⟩
    · intro hb
      exact absurd hb hnn
    · intro hb
      exact Option.noConfusion hb
    · intro hb
      exact Option.noConfusion hb
    · intro a ha
      cases ha
      rfl

theorem create_null_iff_allocation_fails_witness :
    alloc_ok heap0 none ∧
    create_audio_device_object heap0 none (some "hw:0") none none =
      malloc heap0 sizeof_audio_object none ∧
    ((create_audio_device_object heap0 none (some "hw:0") none none).1 = NULL ↔
      (none : AllocOutcome) = none) ∧
    ((none : AllocOutcome) = none →
      (create_audio_device_object heap0 none (some "hw:0") none none).2 = heap0 ∧
      (create_audio_device_object heap0 none (some "hw:0") none none).2.live = heap0.live) ∧
    (∀ a, (none : AllocOutcome) = some a →
      create_audio_device_object heap0 none (some "hw:0") none none =
        (a, { heap0 with live := insert a heap0.live })) :=
  ⟨by decide,
    create_null_iff_allocation_fails heap0 none (some "hw:0") none none (by decide)⟩

/-- C10: none of open, write, drain, flush, close and strerror reads the handle.
On the null handle open, write, drain and flush return 0 and strerror returns
"Success", all with the heap unchanged, and close changes nothing; each of the
six gives on the null handle the result it gives on any other handle; and the
same holds on the handle and heap that a failed create returns. -/
theorem operations_ignore_the_handle (h : Heap) (object : Ptr) (format : Int)
    (rate channels : Nat) (data : CBuffer) (bytes : Nat) (error : Int)
    (device application_name description : CString) :
    (audio_object_open h NULL format rate channels = (0, h) ∧
      audio_object_write h NULL data bytes = (0, h) ∧
      audio_object_drain h NULL = (0, h) ∧
      audio_object_flush h NULL = (0, h) ∧
      audio_object_strerror h NULL error = ("Success", h) ∧
      audio_object_close h NULL = h) ∧
    (audio_object_open h NULL format rate channels =
        audio_object_open h object format rate channels ∧
      audio_object_write h NULL data bytes = audio_object_write h object data bytes ∧
      audio_object_drain h NULL = audio_object_drain h object ∧
      audio_object_flush h NULL = audio_object_flush h object ∧
      audio_object_strerror h NULL error = audio_object_strerror h object error ∧
      audio_object_close h NULL = audio_object_close h object) ∧
    ((create_audio_device_object h none device application_name description).1 = NULL ∧
      audio_object_open
          (create_audio_device_object h none device application_name description).2
          (create_audio_device_object h none device application_name description).1
          format rate channels = (0, h) ∧
      audio_object_write
          (create_audio_device_object h none device application_name description).2
          (create_audio_device_object h none device application_name description).1
          data bytes = (0, h) ∧
      audio_object_drain
          (create_audio_device_object h none device application_name description).2
          (create_audio_device_object h none device application_name description).1 =
        (0, h) ∧
      audio_object_flush
          (create_audio_device_object h none device application_name description).2
          (create_audio_device_object h none device application_name description).1 =
        (0, h) ∧
      audio_object_strerror
          (create_audio_device_object h none device application_name description).2
          (create_audio_device_object h none device application_name description).1
          error = ("Success", h) ∧
      audio_object_close
          (create_audio_device_object h none device application_name description).2
          (create_audio_device_object h none device application_name description).1 = h) :=
  ⟨⟨rfl, rfl, rfl, rfl, rfl, rfl⟩, ⟨rfl, rfl, rfl, rfl, rfl, rfl⟩,
    ⟨rfl, rfl, rfl, rfl, rfl, rfl, rfl⟩⟩

end DummyPcaudiolib
